import Mathlib

/-!
Shallow embedding of the configuration subsystem of todokku/siren
(`cmd/bot/config.go`): the data model (`endpoint`, `coinPaymentsConfig`,
`config`), the validator (`checkConfig`, `checkCoinPaymentsConfig`), the
fraction regular expression `^(\d+)/(\d+)$`, the 64-bit integer parser
`strconv.ParseInt`, the IP-literal parser `net.ParseIP`, and the strict
JSON decoding of `parseConfig` (`json.Decoder` with `DisallowUnknownFields`).
Go strings become Lean `String`, Go `int`/`int64` become `Int` with the
64-bit bound made explicit where `strconv.ParseInt` enforces it, Go maps
become association lists (iteration order is the list order; the Go map
iteration order being unspecified is modelled by quantifying over
permutations of the list), and fallible code returns `Except String`.
-/

namespace Siren

/-- Maximum value of a Go `int`/`int64`: `strconv.ParseInt(s, 10, 0)` fails
with an out-of-range error above this bound. -/
def intMax : Nat := 9223372036854775807

/-- Decidable equality for `Except`, used to evaluate the validator on
concrete configurations. -/
instance exceptDecEq {ε α : Type} [DecidableEq ε] [DecidableEq α] :
    DecidableEq (Except ε α) := fun x y =>
  match x, y with
  | .ok a, .ok b =>
    if h : a = b then isTrue (by rw [h])
    else isFalse fun hc => h (by cases hc; rfl)
  | .error a, .error b =>
    if h : a = b then isTrue (by rw [h])
    else isFalse fun hc => h (by cases hc; rfl)
  | .ok _, .error _ => isFalse fun hc => Except.noConfusion hc
  | .error _, .ok _ => isFalse fun hc => Except.noConfusion hc

/-- Splitting a character list at every occurrence of the separator `c`
(the structural counterpart of `strings.Split` on a one-character
separator, as Go's regexp and IP parsing consume their input). -/
def splitOnCharAux (c : Char) : List Char → List Char → List String
  | [], acc => [String.mk acc.reverse]
  | x :: xs, acc =>
    if x = c then String.mk acc.reverse :: splitOnCharAux c xs []
    else splitOnCharAux c xs (x :: acc)

/-- Split a string at every occurrence of the character `c`. -/
def splitOnChar (c : Char) (s : String) : List String :=
  splitOnCharAux c s.toList []

/-- Numeric value of a decimal digit string. -/
def digitsToNat (s : String) : Nat :=
  s.toList.foldl (fun a c => a * 10 + (c.toNat - 48)) 0

/-- `true` iff every character of `s` is an ASCII decimal digit.
Go's `regexp` `\d` matches exactly ASCII `0-9`. -/
def allDigits (s : String) : Bool := s.toList.all Char.isDigit

/-- Model of `fractionRegexp.FindStringSubmatch` for the anchored pattern
`^(\d+)/(\d+)$` (config.go line 66): the whole string must be one or more
digits, a slash, and one or more digits; on a match the two capture groups
are returned. -/
def fractionMatch (s : String) : Option (String × String) :=
  match splitOnChar '/' s with
  | [a, b] =>
    if a ≠ "" && b ≠ "" && allDigits a && allDigits b then some (a, b) else none
  | _ => none

/-- Model of `strconv.ParseInt(s, 10, 0)` as applied to the digit-only
capture groups of `fractionRegexp`: a digit string parses to its value
unless it exceeds the 64-bit signed maximum, in which case `ParseInt`
returns a range error. -/
def goParseIntDigits (s : String) : Except String Int :=
  if s.toList ≠ [] ∧ s.toList.all Char.isDigit then
    if digitsToNat s ≤ intMax then .ok (Int.ofNat (digitsToNat s))
    else .error ("strconv.ParseInt: parsing " ++ s ++ ": value out of range")
  else .error ("strconv.ParseInt: parsing " ++ s ++ ": invalid syntax")

/-- Modelled from the Go standard library: one decimal field of an IPv4
literal as `net.parseIPv4` accepts it (Go 1.17+): non-empty, all digits,
no leading zero, value at most 255. -/
def validV4Field (p : String) : Bool :=
  !p.toList.isEmpty && allDigits p &&
    (p.toList.length == 1 || p.toList.head? != some '0') &&
    digitsToNat p ≤ 255

/-- Modelled from the Go standard library: `net.parseIPv4` — four decimal
fields separated by dots. -/
def parseIPv4 (s : String) : Bool :=
  match splitOnChar '.' s with
  | [a, b, c, d] => validV4Field a && validV4Field b && validV4Field c && validV4Field d
  | _ => false

/-- One hexadecimal group of an IPv6 literal: one to four hex digits. -/
def isIPv6Group (s : String) : Bool :=
  s.toList.length ≥ 1 && s.toList.length ≤ 4 &&
    s.toList.all fun c => c.isDigit || ('a' ≤ c && c ≤ 'f') || ('A' ≤ c && c ≤ 'F')

/-- Number of 16-bit groups denoted by a colon-separated piece list, where
the final piece may be an embedded IPv4 literal counting as two groups;
`none` when some piece is malformed. -/
def ipv6GroupCount (parts : List String) : Option Nat :=
  match parts with
  | [] => some 0
  | _ =>
    if parts.all isIPv6Group then some parts.length
    else
      match parts.getLast? with
      | some last =>
        if parts.dropLast.all isIPv6Group && parseIPv4 last then
          some (parts.dropLast.length + 2)
        else none
      | none => none

/-- Splitting a character list at every occurrence of the two-character
separator `::`, leftmost first, as `strings.Split(s, "::")` does. -/
def splitOnDCAux : List Char → List Char → List String
  | [], acc => [String.mk acc.reverse]
  | ':' :: ':' :: rest, acc => String.mk acc.reverse :: splitOnDCAux rest []
  | x :: rest, acc => splitOnDCAux rest (x :: acc)

/-- The pieces of a string around each `::` occurrence. -/
def splitOnDC (s : String) : List String := splitOnDCAux s.toList []

/-- Modelled from the Go standard library: `net.parseIPv6` — eight groups,
with a single `::` standing for one or more zero groups and an optional
trailing embedded IPv4 literal. Zone suffixes are rejected, as by
`net.ParseIP`. -/
def parseIPv6 (s : String) : Bool :=
  match splitOnDC s with
  | [one] =>
    match ipv6GroupCount (splitOnChar ':' one) with
    | some n => n == 8
    | none => false
  | [l, r] =>
    let lparts := if l = "" then [] else splitOnChar ':' l
    let rparts := if r = "" then [] else splitOnChar ':' r
    if lparts.all isIPv6Group then
      match ipv6GroupCount rparts with
      | some n => lparts.length + n ≤ 7
      | none => false
    else false
  | _ => false

/-- Modelled from the Go standard library: `net.ParseIP` as used on
config.go line 90, returned as `true` iff the result is non-nil. Go
dispatches on the first `.` or `:` in the string; a string with neither
(including the empty string) yields nil. -/
def parseIP (s : String) : Bool :=
  match s.toList.find? fun c => c == '.' || c == ':' with
  | some c => if c = '.' then parseIPv4 s else parseIPv6 s
  | none => false

/-- Go struct `endpoint` (config.go lines 15-23). -/
structure Endpoint where
  listenPath : String := ""
  listenAddress : String := ""
  webhookDomain : String := ""
  certificatePath : String := ""
  certificateKeyPath : String := ""
  botToken : String := ""
  translation : String := ""
  deriving Repr, DecidableEq

/-- Go struct `coinPaymentsConfig` (config.go lines 25-36), including the
two derived unexported fields. -/
structure CoinPaymentsConfig where
  subscriptionPacket : String := ""
  currencies : List String := []
  publicKey : String := ""
  privateKey : String := ""
  ipnListenURL : String := ""
  ipnListenAddress : String := ""
  ipnSecret : String := ""
  subscriptionPacketPrice : Int := 0
  subscriptionPacketModelNumber : Int := 0
  deriving Repr, DecidableEq

/-- Go struct `config` (config.go lines 38-64). The `endpoints` map is an
association list whose order stands for one iteration order of the Go map. -/
structure Config where
  website : String := ""
  periodSeconds : Int := 0
  maxModels : Int := 0
  timeoutSeconds : Int := 0
  adminID : Int := 0
  adminEndpoint : String := ""
  dbPath : String := ""
  notFoundThreshold : Int := 0
  blockThreshold : Int := 0
  debug : Bool := false
  intervalMs : Int := 0
  sourceIPAddresses : List String := []
  dangerousErrorRate : String := ""
  enableCookies : Bool := false
  headers : List (String × String) := []
  statPassword : String := ""
  errorReportingPeriodMinutes : Int := 0
  endpoints : List (String × Endpoint) := []
  coinPayments : Option CoinPaymentsConfig := none
  heavyUserRemainder : Int := 0
  mailHost : String := ""
  mailListenAddress : String := ""
  errorThreshold : Int := 0
  errorDenominator : Int := 0
  deriving Repr, DecidableEq

/-- Go map indexing `cfg.Endpoints[cfg.AdminEndpoint]` (config.go line 108):
lookup in the association list. -/
def lookupEndpoint (l : List (String × Endpoint)) (k : String) : Option Endpoint :=
  match l with
  | [] => none
  | (k', v) :: rest => if k' = k then some v else lookupEndpoint rest k

/-- The loop over `cfg.SourceIPAddresses` (config.go lines 89-93): every
element must be accepted by `net.ParseIP`. -/
def checkSourceIPs : List String → Except String Unit
  | [] => .ok ()
  | x :: rest =>
    if parseIP x then checkSourceIPs rest
    else .error ("cannot parse sourece IP address " ++ x)

/-- The body of the loop over `cfg.Endpoints` (config.go lines 95-106). -/
def checkEndpointEntry (x : Endpoint) : Except String Unit :=
  if x.listenAddress = "" then .error "configure listen_address"
  else if x.listenPath = "" then .error "configure listen_path"
  else if x.botToken = "" then .error "configure bot_token"
  else if x.translation = "" then .error "configure translation"
  else .ok ()

/-- The loop over `cfg.Endpoints` (config.go lines 94-107), in the order
given by the association list. -/
def checkEndpoints : List (String × Endpoint) → Except String Unit
  | [] => .ok ()
  | (_, x) :: rest =>
    match checkEndpointEntry x with
    | .ok _ => checkEndpoints rest
    | .error e => .error e

/-- The chain of required-scalar and required-string checks of
`checkConfig` (config.go lines 111-149), in source order. -/
def checkRequiredFields (cfg : Config) : Except String Unit :=
  if cfg.periodSeconds = 0 then .error "configure period_seconds"
  else if cfg.maxModels = 0 then .error "configure max_models"
  else if cfg.timeoutSeconds = 0 then .error "configure timeout_seconds"
  else if cfg.adminID = 0 then .error "configure admin_id"
  else if cfg.dbPath = "" then .error "configure db_path"
  else if cfg.notFoundThreshold = 0 then .error "configure not_found_threshold"
  else if cfg.blockThreshold = 0 then .error "configure block_threshold"
  else if cfg.website = "" then .error "configure website"
  else if cfg.statPassword = "" then .error "configure stat_password"
  else if cfg.errorReportingPeriodMinutes = 0 then .error "configure error_reporting_period_minutes"
  else if cfg.heavyUserRemainder = 0 then .error "configure heavy_user_remainder"
  else if cfg.mailHost = "" then .error "configure mail_host"
  else if cfg.mailListenAddress = "" then .error "configure mail_listen_address"
  else .ok ()

/-- The `dangerous_error_rate` block of `checkConfig` (config.go lines
151-170): match against the fraction pattern, parse both groups with
`strconv.ParseInt`, reject a zero denominator, and store the derived
fields. -/
def checkDangerousErrorRate (cfg : Config) : Except String Config :=
  match fractionMatch cfg.dangerousErrorRate with
  | some (m1, m2) =>
    match goParseIntDigits m1 with
    | .error e => .error e
    | .ok errorThreshold =>
      match goParseIntDigits m2 with
      | .error e => .error e
      | .ok errorDenominator =>
        if errorDenominator = 0 then
          .error "configure dangerous_errors_rate as \"x/y\", where y > 0"
        else
          .ok { cfg with errorThreshold := errorThreshold,
                         errorDenominator := errorDenominator }
  | none => .error "configure dangerous_error_rate"

/-- The `subscription_packet` block of `checkCoinPaymentsConfig`
(config.go lines 201-220): match, parse the first group into
`subscriptionPacketModelNumber` and the second into
`subscriptionPacketPrice`, rejecting a zero in either. -/
def checkSubscriptionPacket (cfg : CoinPaymentsConfig) : Except String CoinPaymentsConfig :=
  match fractionMatch cfg.subscriptionPacket with
  | some (m1, m2) =>
    match goParseIntDigits m1 with
    | .error e => .error e
    | .ok subscriptionPacketModelNumber =>
      match goParseIntDigits m2 with
      | .error e => .error e
      | .ok subscriptionPacketPrice =>
        if subscriptionPacketModelNumber = 0 ∨ subscriptionPacketPrice = 0 then
          .error "invalid subscription packet"
        else
          .ok { cfg with subscriptionPacketPrice := subscriptionPacketPrice,
                         subscriptionPacketModelNumber := subscriptionPacketModelNumber }
  | none => .error "configure subscription_packet"

/-- `checkCoinPaymentsConfig` (config.go lines 181-223). -/
def checkCoinPaymentsConfig (cfg : CoinPaymentsConfig) : Except String CoinPaymentsConfig :=
  if cfg.currencies.length = 0 then .error "configure currencies"
  else if cfg.publicKey = "" then .error "configure public_key"
  else if cfg.privateKey = "" then .error "configure private_key"
  else if cfg.ipnListenURL = "" then .error "configure ipn_path"
  else if cfg.ipnListenAddress = "" then .error "configure ipn_path"
  else if cfg.ipnSecret = "" then .error "configure ipn_secret"
  else checkSubscriptionPacket cfg

/-- `checkConfig` (config.go lines 88-179): source-IP loop, endpoint loop,
admin-endpoint lookup, required-field chain, fraction parsing, and the
optional coin-payments sub-validator (which updates the nested struct
through the pointer). -/
def checkConfig (cfg : Config) : Except String Config :=
  match checkSourceIPs cfg.sourceIPAddresses with
  | .error e => .error e
  | .ok _ =>
    match checkEndpoints cfg.endpoints with
    | .error e => .error e
    | .ok _ =>
      match lookupEndpoint cfg.endpoints cfg.adminEndpoint with
      | none => .error "configure admin_endpoint"
      | some _ =>
        match checkRequiredFields cfg with
        | .error e => .error e
        | .ok _ =>
          match checkDangerousErrorRate cfg with
          | .error e => .error e
          | .ok cfg2 =>
            match cfg2.coinPayments with
            | none => .ok cfg2
            | some cp =>
              match checkCoinPaymentsConfig cp with
              | .error e => .error e
              | .ok cp2 => .ok { cfg2 with coinPayments := some cp2 }

/-- A JSON value, as fed to `json.Decoder.Decode`. Numbers are restricted
to the integers the config schema stores. -/
inductive Json where
  | null : Json
  | bool : Bool → Json
  | num : Int → Json
  | str : String → Json
  | arr : List Json → Json
  | obj : List (String × Json) → Json
  deriving Repr

/-- Decoding a JSON value into a Go `string` field. -/
def asString : Json → Except String String
  | .str s => .ok s
  | _ => .error "json: cannot unmarshal value into field of type string"

/-- Decoding a JSON value into a Go `int`/`int64` field. -/
def asInt : Json → Except String Int
  | .num n => .ok n
  | _ => .error "json: cannot unmarshal value into field of type int"

/-- Decoding a JSON value into a Go `bool` field. -/
def asBool : Json → Except String Bool
  | .bool b => .ok b
  | _ => .error "json: cannot unmarshal value into field of type bool"

/-- Decoding a JSON array into a Go `[]string`; as in `encoding/json`,
`null` leaves the slice at its zero value. -/
def asStringList (current : List String) : Json → Except String (List String)
  | .null => .ok current
  | .arr items => items.mapM asString
  | _ => .error "json: cannot unmarshal value into field of type []string"

/-- Decoding a JSON array into a Go `[2]string`: as in `encoding/json`,
missing elements become the zero value and extra elements are discarded. -/
def asHeaderPair : Json → Except String (String × String)
  | .arr items =>
    match items with
    | [] => .ok ("", "")
    | [a] => do
      let s1 ← asString a
      .ok (s1, "")
    | a :: b :: _ => do
      let s1 ← asString a
      let s2 ← asString b
      .ok (s1, s2)
  | _ => .error "json: cannot unmarshal value into field of type [2]string"

/-- Decoding a JSON array into the Go `[][2]string` headers field; `null`
leaves the slice at its zero value. -/
def asHeaders (current : List (String × String)) : Json → Except String (List (String × String))
  | .null => .ok current
  | .arr items => items.mapM asHeaderPair
  | _ => .error "json: cannot unmarshal value into field of type [][2]string"

/-- Sequential strict decoding of an object's key/value list, applying
`step` to each pair in document order and failing at the first error —
as `json.Decoder` with `DisallowUnknownFields` does. -/
def decodeFields {α : Type} (step : α → String → Json → Except String α) :
    α → List (String × Json) → Except String α
  | acc, [] => .ok acc
  | acc, (k, v) :: rest =>
    match step acc k v with
    | .ok acc2 => decodeFields step acc2 rest
    | .error e => .error e

/-- Modelled from the spec (§4.1, §6): the strict decoding of one field of
the `endpoint` struct by `encoding/json` with `DisallowUnknownFields` —
library behaviour not part of this repository. A key not among the
struct's `json` tags is a hard error. -/
def setEndpointField (e : Endpoint) (k : String) (v : Json) : Except String Endpoint :=
  if k = "listen_path" then do let s ← asString v; .ok { e with listenPath := s }
  else if k = "listen_address" then do let s ← asString v; .ok { e with listenAddress := s }
  else if k = "webhook_domain" then do let s ← asString v; .ok { e with webhookDomain := s }
  else if k = "certificate_path" then do let s ← asString v; .ok { e with certificatePath := s }
  else if k = "certificate_key_path" then do let s ← asString v; .ok { e with certificateKeyPath := s }
  else if k = "bot_token" then do let s ← asString v; .ok { e with botToken := s }
  else if k = "translation" then do let s ← asString v; .ok { e with translation := s }
  else .error ("json: unknown field " ++ k)

/-- Strict decoding of one `endpoint` object. -/
def decodeEndpoint : Json → Except String Endpoint
  | .obj kvs => decodeFields setEndpointField {} kvs
  | _ => .error "json: cannot unmarshal value into field of type endpoint"

/-- Insertion into the decoded `map[string]endpoint`: a repeated key
overwrites the earlier entry, as in a Go map. -/
def insertEndpoint (l : List (String × Endpoint)) (k : String) (e : Endpoint) :
    List (String × Endpoint) :=
  match l with
  | [] => [(k, e)]
  | (k', e') :: rest =>
    if k' = k then (k, e) :: rest else (k', e') :: insertEndpoint rest k e

/-- Strict decoding of the `endpoints` JSON object into the association
list standing for Go's `map[string]endpoint`, in document order. -/
def decodeEndpointMap (acc : List (String × Endpoint)) :
    List (String × Json) → Except String (List (String × Endpoint))
  | [] => .ok acc
  | (name, j) :: rest =>
    match decodeEndpoint j with
    | .ok e => decodeEndpointMap (insertEndpoint acc name e) rest
    | .error e => .error e

/-- Decoding the `endpoints` field value; `null` leaves the map at its
zero value. -/
def asEndpointMap (current : List (String × Endpoint)) :
    Json → Except String (List (String × Endpoint))
  | .null => .ok current
  | .obj kvs => decodeEndpointMap current kvs
  | _ => .error "json: cannot unmarshal value into field of type map[string]endpoint"

/-- Modelled from the spec (§4.1, §6): strict decoding of one field of the
`coinPaymentsConfig` struct; an unknown key is a hard error. -/
def setCoinPaymentsField (c : CoinPaymentsConfig) (k : String) (v : Json) :
    Except String CoinPaymentsConfig :=
  if k = "subscription_packet" then do let s ← asString v; .ok { c with subscriptionPacket := s }
  else if k = "currencies" then do let l ← asStringList c.currencies v; .ok { c with currencies := l }
  else if k = "public_key" then do let s ← asString v; .ok { c with publicKey := s }
  else if k = "private_key" then do let s ← asString v; .ok { c with privateKey := s }
  else if k = "ipn_listen_url" then do let s ← asString v; .ok { c with ipnListenURL := s }
  else if k = "ipn_listen_address" then do let s ← asString v; .ok { c with ipnListenAddress := s }
  else if k = "ipn_secret" then do let s ← asString v; .ok { c with ipnSecret := s }
  else .error ("json: unknown field " ++ k)

/-- Strict decoding of the `coin_payments` field value into the optional
`*coinPaymentsConfig`; `null` sets the pointer to nil. -/
def asCoinPayments (current : Option CoinPaymentsConfig) :
    Json → Except String (Option CoinPaymentsConfig)
  | .null => .ok none
  | .obj kvs => do
    let c ← decodeFields setCoinPaymentsField (current.getD {}) kvs
    .ok (some c)
  | _ => .error "json: cannot unmarshal value into field of type coinPaymentsConfig"

/-- Modelled from the spec (§4.1, §6): strict decoding of one top-level
field of the `config` struct by `encoding/json` with
`DisallowUnknownFields` — library behaviour not part of this repository.
A key not among the struct's `json` tags is a hard error. -/
def setConfigField (c : Config) (k : String) (v : Json) : Except String Config :=
  if k = "website" then do let s ← asString v; .ok { c with website := s }
  else if k = "period_seconds" then do let n ← asInt v; .ok { c with periodSeconds := n }
  else if k = "max_models" then do let n ← asInt v; .ok { c with maxModels := n }
  else if k = "timeout_seconds" then do let n ← asInt v; .ok { c with timeoutSeconds := n }
  else if k = "admin_id" then do let n ← asInt v; .ok { c with adminID := n }
  else if k = "admin_endpoint" then do let s ← asString v; .ok { c with adminEndpoint := s }
  else if k = "db_path" then do let s ← asString v; .ok { c with dbPath := s }
  else if k = "not_found_threshold" then do let n ← asInt v; .ok { c with notFoundThreshold := n }
  else if k = "block_threshold" then do let n ← asInt v; .ok { c with blockThreshold := n }
  else if k = "debug" then do let b ← asBool v; .ok { c with debug := b }
  else if k = "interval_ms" then do let n ← asInt v; .ok { c with intervalMs := n }
  else if k = "source_ip_addresses" then do
    let l ← asStringList c.sourceIPAddresses v; .ok { c with sourceIPAddresses := l }
  else if k = "dangerous_error_rate" then do
    let s ← asString v; .ok { c with dangerousErrorRate := s }
  else if k = "enable_cookies" then do let b ← asBool v; .ok { c with enableCookies := b }
  else if k = "headers" then do let h ← asHeaders c.headers v; .ok { c with headers := h }
  else if k = "stat_password" then do let s ← asString v; .ok { c with statPassword := s }
  else if k = "error_reporting_period_minutes" then do
    let n ← asInt v; .ok { c with errorReportingPeriodMinutes := n }
  else if k = "endpoints" then do
    let m ← asEndpointMap c.endpoints v; .ok { c with endpoints := m }
  else if k = "coin_payments" then do
    let cp ← asCoinPayments c.coinPayments v; .ok { c with coinPayments := cp }
  else if k = "heavy_user_remainder" then do
    let n ← asInt v; .ok { c with heavyUserRemainder := n }
  else if k = "mail_host" then do let s ← asString v; .ok { c with mailHost := s }
  else if k = "mail_listen_address" then do
    let s ← asString v; .ok { c with mailListenAddress := s }
  else .error ("json: unknown field " ++ k)

/-- The `json` tags of the top-level `config` struct. -/
def configKeys : List String :=
  ["website", "period_seconds", "max_models", "timeout_seconds", "admin_id",
   "admin_endpoint", "db_path", "not_found_threshold", "block_threshold",
   "debug", "interval_ms", "source_ip_addresses", "dangerous_error_rate",
   "enable_cookies", "headers", "stat_password",
   "error_reporting_period_minutes", "endpoints", "coin_payments",
   "heavy_user_remainder", "mail_host", "mail_listen_address"]

/-- The `json` tags of the `endpoint` struct. -/
def endpointKeys : List String :=
  ["listen_path", "listen_address", "webhook_domain", "certificate_path",
   "certificate_key_path", "bot_token", "translation"]

/-- The `json` tags of the `coinPaymentsConfig` struct. -/
def coinPaymentsKeys : List String :=
  ["subscription_packet", "currencies", "public_key", "private_key",
   "ipn_listen_url", "ipn_listen_address", "ipn_secret"]

/-- Strict decoding of the whole document into a `config`
(`decoder.Decode(cfg)` with `DisallowUnknownFields`, config.go
lines 76-80). -/
def decodeConfig : Json → Except String Config
  | .obj kvs => decodeFields setConfigField {} kvs
  | _ => .error "json: cannot unmarshal value into type config"

/-- `parseConfig` (config.go lines 75-86): strict decode, validate with
`checkConfig`, then default an empty `SourceIPAddresses` to the
single-empty-string sentinel. `checkErr` aborts the process on error,
modelled by propagating the error. -/
def parseConfig (j : Json) : Except String Config := do
  let cfg ← decodeConfig j
  let cfg ← checkConfig cfg
  if cfg.sourceIPAddresses.length = 0 then
    .ok { cfg with sourceIPAddresses := [""] }
  else
    .ok cfg

/-- A concrete valid configuration used to instantiate the theorems: one
endpoint named by `admin_endpoint`, all required scalars 1, all required
strings non-empty, `dangerous_error_rate = "1/1000"`. -/
def cfgBase : Config :=
  { website := "chaturbate", periodSeconds := 1, maxModels := 1, timeoutSeconds := 1,
    adminID := 1, adminEndpoint := "main", dbPath := "siren.db", notFoundThreshold := 1,
    blockThreshold := 1, sourceIPAddresses := ["127.0.0.1"],
    dangerousErrorRate := "1/1000", statPassword := "pass",
    errorReportingPeriodMinutes := 1,
    endpoints := [("main", { listenPath := "/token", listenAddress := ":443",
                             botToken := "token", translation := "t.json" })],
    heavyUserRemainder := 1, mailHost := "mail.example.org", mailListenAddress := ":25" }

/-- A concrete valid coin-payments configuration. -/
def cpBase : CoinPaymentsConfig :=
  { subscriptionPacket := "15/10", currencies := ["BTC"], publicKey := "pub",
    privateKey := "priv", ipnListenURL := "https://example.org/ipn",
    ipnListenAddress := ":8000", ipnSecret := "secret" }

/-- The minimal well-formed JSON document of the round-trip property. -/
def minimalDoc : Json :=
  .obj [ ("website", .str "chaturbate"), ("period_seconds", .num 1),
    ("max_models", .num 1), ("timeout_seconds", .num 1), ("admin_id", .num 1),
    ("admin_endpoint", .str "main"), ("db_path", .str "siren.db"),
    ("not_found_threshold", .num 1), ("block_threshold", .num 1),
    ("dangerous_error_rate", .str "1/1000"), ("stat_password", .str "pass"),
    ("error_reporting_period_minutes", .num 1),
    ("endpoints", .obj [("main", .obj [("listen_path", .str "/token"),
      ("listen_address", .str ":443"), ("bot_token", .str "token"),
      ("translation", .str "t.json")])]),
    ("heavy_user_remainder", .num 1), ("mail_host", .str "mail.example.org"),
    ("mail_listen_address", .str ":25") ]

/-- An endpoint entry whose `listen_address` is empty. -/
def epNoAddress : Endpoint :=
  { listenPath := "/a", botToken := "ta", translation := "tra" }

/-- An endpoint entry whose `listen_path` is empty. -/
def epNoPath : Endpoint :=
  { listenAddress := ":80", botToken := "tb", translation := "trb" }

/-- Two decoded documents describe the same JSON document when they agree
on every field and their `endpoints` association lists are permutations of
one another: the Go runtime presents the same `map[string]endpoint` in an
unspecified iteration order. -/
def samePermutedDoc (c1 c2 : Config) : Prop :=
  c1.endpoints.Perm c2.endpoints ∧ c2 = { c1 with endpoints := c2.endpoints }

/-- `cfgBase` after validation: the two derived error-rate fields filled in. -/
def cfgBaseOk : Config :=
  { cfgBase with errorThreshold := 1, errorDenominator := 1000 }

/-- `cpBase` after validation: the two derived packet fields filled in. -/
def cpBaseOk : CoinPaymentsConfig :=
  { cpBase with subscriptionPacketPrice := 10, subscriptionPacketModelNumber := 15 }

/-- The decoded form of `minimalDoc` (before validation): `cfgBase` except
that `source_ip_addresses` was omitted, so the slice is empty. -/
def minimalDecoded : Config :=
  { cfgBase with sourceIPAddresses := [] }

/-- The value `parseConfig` returns for `minimalDoc`: derived fields set
and the source-IP sentinel appended. -/
def minimalParsed : Config :=
  { cfgBase with sourceIPAddresses := [""],
                 errorThreshold := 1, errorDenominator := 1000 }

/-- A document in which two endpoint entries violate different required
fields, in one iteration order. -/
def cfgTwoBadA : Config :=
  { cfgBase with endpoints := [("a", epNoAddress), ("b", epNoPath)] }

/-- The same document as `cfgTwoBadA` with the opposite iteration order of
the endpoints map. -/
def cfgTwoBadB : Config :=
  { cfgBase with endpoints := [("b", epNoPath), ("a", epNoAddress)] }

/-!  Helper lemmas about the validator. -/

theorem checkEndpoints_isOk (l : List (String × Endpoint)) :
    (checkEndpoints l).isOk = l.all fun p => (checkEndpointEntry p.2).isOk := by
  induction l with
  | nil => rfl
  | cons hd tl ih =>
    obtain ⟨k, x⟩ := hd
    cases hx : checkEndpointEntry x with
    | ok u => simpa [checkEndpoints, hx, Except.isOk, Except.toBool] using ih
    | error e => simp [checkEndpoints, hx, Except.isOk, Except.toBool]

theorem lookupEndpoint_isSome_iff (l : List (String × Endpoint)) (k : String) :
    (lookupEndpoint l k).isSome = true ↔ ∃ v, (k, v) ∈ l := by
  induction l with
  | nil => simp [lookupEndpoint]
  | cons hd tl ih =>
    obtain ⟨k', v'⟩ := hd
    simp only [lookupEndpoint]
    by_cases hk : k' = k
    · subst hk
      simp
    · simp only [beq_iff_eq, hk, if_false, ih]
      constructor
      · rintro ⟨v, hv⟩
        exact ⟨v, List.mem_cons_of_mem _ hv⟩
      · rintro ⟨v, hv⟩
        rcases List.mem_cons.mp hv with h | h
        · cases h
          exact absurd rfl hk
        · exact ⟨v, h⟩

theorem checkDangerousErrorRate_ok_shape {cfg cfg2 : Config}
    (h : checkDangerousErrorRate cfg = .ok cfg2) :
    ∃ m1 m2 n1 n2, fractionMatch cfg.dangerousErrorRate = some (m1, m2) ∧
      goParseIntDigits m1 = .ok n1 ∧ goParseIntDigits m2 = .ok n2 ∧ n2 ≠ 0 ∧
      cfg2 = { cfg with errorThreshold := n1, errorDenominator := n2 } := by
  unfold checkDangerousErrorRate at h
  split at h
  · next m1 m2 hm =>
    split at h
    · exact Except.noConfusion h
    · next n1 h1 =>
      split at h
      · exact Except.noConfusion h
      · next n2 h2 =>
        split at h
        · exact Except.noConfusion h
        · next hz =>
          refine ⟨m1, m2, n1, n2, hm, h1, h2, ?_, (Except.ok.injEq _ _).mp h |>.symm⟩
          simpa using hz
  · exact Except.noConfusion h

theorem checkSubscriptionPacket_ok_shape {cp cp2 : CoinPaymentsConfig}
    (h : checkSubscriptionPacket cp = .ok cp2) :
    ∃ m1 m2 n1 n2, fractionMatch cp.subscriptionPacket = some (m1, m2) ∧
      goParseIntDigits m1 = .ok n1 ∧ goParseIntDigits m2 = .ok n2 ∧
      n1 ≠ 0 ∧ n2 ≠ 0 ∧
      cp2 = { cp with subscriptionPacketPrice := n2,
                      subscriptionPacketModelNumber := n1 } := by
  unfold checkSubscriptionPacket at h
  split at h
  · next m1 m2 hm =>
    split at h
    · exact Except.noConfusion h
    · next n1 h1 =>
      split at h
      · exact Except.noConfusion h
      · next n2 h2 =>
        split at h
        · exact Except.noConfusion h
        · next hz =>
          rw [not_or] at hz
          exact ⟨m1, m2, n1, n2, hm, h1, h2, hz.1, hz.2,
            (Except.ok.injEq _ _).mp h |>.symm⟩
  · exact Except.noConfusion h

theorem checkConfig_ok_parts {cfg r : Config} (h : checkConfig cfg = .ok r) :
    (checkSourceIPs cfg.sourceIPAddresses).isOk = true ∧
    (checkEndpoints cfg.endpoints).isOk = true ∧
    (lookupEndpoint cfg.endpoints cfg.adminEndpoint).isSome = true ∧
    (checkRequiredFields cfg).isOk = true ∧
    ∃ cfg2, checkDangerousErrorRate cfg = .ok cfg2 ∧
      ((cfg2.coinPayments = none ∧ r = cfg2) ∨
       ∃ cp cp2, cfg2.coinPayments = some cp ∧
         checkCoinPaymentsConfig cp = .ok cp2 ∧
         r = { cfg2 with coinPayments := some cp2 }) := by
  unfold checkConfig at h
  split at h
  · exact Except.noConfusion h
  · next u h1 =>
    split at h
    · exact Except.noConfusion h
    · next u2 h2 =>
      split at h
      · exact Except.noConfusion h
      · next ep h3 =>
        split at h
        · exact Except.noConfusion h
        · next u3 h4 =>
          split at h
          · exact Except.noConfusion h
          · next cfg2 h5 =>
            refine ⟨by simp [h1, Except.isOk, Except.toBool],
              by simp [h2, Except.isOk, Except.toBool],
              by simp [h3], by simp [h4, Except.isOk, Except.toBool],
              cfg2, h5, ?_⟩
            split at h
            · next hcp =>
              exact Or.inl ⟨hcp, ((Except.ok.injEq _ _).mp h).symm⟩
            · next cp hcp =>
              split at h
              · exact Except.noConfusion h
              · next cp2 h6 =>
                exact Or.inr ⟨cp, cp2, hcp, h6, ((Except.ok.injEq _ _).mp h).symm⟩

theorem exceptIsOk_iff {ε α : Type} (x : Except ε α) :
    x.isOk = true ↔ ∃ a, x = .ok a := by
  cases x <;> simp [Except.isOk, Except.toBool]

theorem checkSourceIPs_isOk (l : List String) :
    (checkSourceIPs l).isOk = l.all parseIP := by
  induction l with
  | nil => rfl
  | cons hd tl ih =>
    by_cases hp : parseIP hd
    · simpa [checkSourceIPs, hp] using ih
    · simp [checkSourceIPs, hp, Except.isOk, Except.toBool]

theorem checkSourceIPs_error_of_bad {l : List String}
    (h : ∃ x ∈ l, parseIP x = false) :
    ∃ y, parseIP y = false ∧
      checkSourceIPs l = .error ("cannot parse sourece IP address " ++ y) := by
  induction l with
  | nil => simp at h
  | cons hd tl ih =>
    by_cases hp : parseIP hd
    · have htl : ∃ x ∈ tl, parseIP x = false := by
        rcases h with ⟨x, hx, hfx⟩
        rcases List.mem_cons.mp hx with rfl | hmem
        · rw [hp] at hfx
          cases hfx
        · exact ⟨x, hmem, hfx⟩
      rcases ih htl with ⟨y, hy, hcs⟩
      exact ⟨y, hy, by simpa [checkSourceIPs, hp] using hcs⟩
    · exact ⟨hd, by simpa using hp, by simp [checkSourceIPs, hp]⟩

theorem checkRequiredFields_ok_iff (cfg : Config) :
    (checkRequiredFields cfg).isOk = true ↔
      cfg.periodSeconds ≠ 0 ∧ cfg.maxModels ≠ 0 ∧ cfg.timeoutSeconds ≠ 0 ∧
      cfg.adminID ≠ 0 ∧ cfg.dbPath ≠ "" ∧ cfg.notFoundThreshold ≠ 0 ∧
      cfg.blockThreshold ≠ 0 ∧ cfg.website ≠ "" ∧ cfg.statPassword ≠ "" ∧
      cfg.errorReportingPeriodMinutes ≠ 0 ∧ cfg.heavyUserRemainder ≠ 0 ∧
      cfg.mailHost ≠ "" ∧ cfg.mailListenAddress ≠ "" := by
  unfold checkRequiredFields
  by_cases h1 : cfg.periodSeconds = 0
  · rw [if_pos h1]; simp [Except.isOk, Except.toBool, h1]
  rw [if_neg h1]
  by_cases h2 : cfg.maxModels = 0
  · rw [if_pos h2]; simp [Except.isOk, Except.toBool, h2]
  rw [if_neg h2]
  by_cases h3 : cfg.timeoutSeconds = 0
  · rw [if_pos h3]; simp [Except.isOk, Except.toBool, h3]
  rw [if_neg h3]
  by_cases h4 : cfg.adminID = 0
  · rw [if_pos h4]; simp [Except.isOk, Except.toBool, h4]
  rw [if_neg h4]
  by_cases h5 : cfg.dbPath = ""
  · rw [if_pos h5]; simp [Except.isOk, Except.toBool, h5]
  rw [if_neg h5]
  by_cases h6 : cfg.notFoundThreshold = 0
  · rw [if_pos h6]; simp [Except.isOk, Except.toBool, h6]
  rw [if_neg h6]
  by_cases h7 : cfg.blockThreshold = 0
  · rw [if_pos h7]; simp [Except.isOk, Except.toBool, h7]
  rw [if_neg h7]
  by_cases h8 : cfg.website = ""
  · rw [if_pos h8]; simp [Except.isOk, Except.toBool, h8]
  rw [if_neg h8]
  by_cases h9 : cfg.statPassword = ""
  · rw [if_pos h9]; simp [Except.isOk, Except.toBool, h9]
  rw [if_neg h9]
  by_cases h10 : cfg.errorReportingPeriodMinutes = 0
  · rw [if_pos h10]; simp [Except.isOk, Except.toBool, h10]
  rw [if_neg h10]
  by_cases h11 : cfg.heavyUserRemainder = 0
  · rw [if_pos h11]; simp [Except.isOk, Except.toBool, h11]
  rw [if_neg h11]
  by_cases h12 : cfg.mailHost = ""
  · rw [if_pos h12]; simp [Except.isOk, Except.toBool, h12]
  rw [if_neg h12]
  by_cases h13 : cfg.mailListenAddress = ""
  · rw [if_pos h13]; simp [Except.isOk, Except.toBool, h13]
  rw [if_neg h13]
  simp [Except.isOk, Except.toBool, h1, h2, h3, h4, h5, h6, h7, h8, h9, h10, h11, h12, h13]

theorem checkConfig_ok_preserves {cfg r : Config} (h : checkConfig cfg = .ok r) :
    r.website = cfg.website ∧ r.periodSeconds = cfg.periodSeconds ∧
    r.maxModels = cfg.maxModels ∧ r.timeoutSeconds = cfg.timeoutSeconds ∧
    r.adminID = cfg.adminID ∧ r.adminEndpoint = cfg.adminEndpoint ∧
    r.dbPath = cfg.dbPath ∧ r.notFoundThreshold = cfg.notFoundThreshold ∧
    r.blockThreshold = cfg.blockThreshold ∧
    r.sourceIPAddresses = cfg.sourceIPAddresses ∧
    r.errorReportingPeriodMinutes = cfg.errorReportingPeriodMinutes ∧
    r.endpoints = cfg.endpoints ∧ r.heavyUserRemainder = cfg.heavyUserRemainder ∧
    r.mailHost = cfg.mailHost ∧ r.mailListenAddress = cfg.mailListenAddress ∧
    r.statPassword = cfg.statPassword := by
  obtain ⟨-, -, -, -, cfg2, he, hf⟩ := checkConfig_ok_parts h
  obtain ⟨m1, m2, n1, n2, -, -, -, -, hshape⟩ := checkDangerousErrorRate_ok_shape he
  rcases hf with ⟨-, rfl⟩ | ⟨cp, cp2, -, -, rfl⟩ <;> subst hshape <;> simp

theorem checkConfig_isOk_iff (cfg : Config) :
    (checkConfig cfg).isOk = true ↔
      cfg.sourceIPAddresses.all parseIP = true ∧
      (cfg.endpoints.all fun p => (checkEndpointEntry p.2).isOk) = true ∧
      (lookupEndpoint cfg.endpoints cfg.adminEndpoint).isSome = true ∧
      (checkRequiredFields cfg).isOk = true ∧
      (checkDangerousErrorRate cfg).isOk = true ∧
      ∀ cp, cfg.coinPayments = some cp → (checkCoinPaymentsConfig cp).isOk = true := by
  constructor
  · intro h
    rcases (exceptIsOk_iff _).mp h with ⟨r, hr⟩
    obtain ⟨ha, hb, hc, hd, cfg2, he, hf⟩ := checkConfig_ok_parts hr
    obtain ⟨m1, m2, n1, n2, -, -, -, -, hshape⟩ := checkDangerousErrorRate_ok_shape he
    refine ⟨by rwa [checkSourceIPs_isOk] at ha, by rwa [checkEndpoints_isOk] at hb,
      hc, hd, (exceptIsOk_iff _).mpr ⟨cfg2, he⟩, ?_⟩
    intro cp hcp
    have hcp2 : cfg2.coinPayments = some cp := by rw [hshape]; simpa using hcp
    rcases hf with ⟨hnone, -⟩ | ⟨cp', cp2, hsome, hok, -⟩
    · rw [hcp2] at hnone
      cases hnone
    · rw [hcp2] at hsome
      cases hsome
      exact (exceptIsOk_iff _).mpr ⟨cp2, hok⟩
  · rintro ⟨ha, hb, hc, hd, he, hf⟩
    rcases (exceptIsOk_iff _).mp ((checkSourceIPs_isOk _).symm ▸ ha) with ⟨u1, h1⟩
    rcases (exceptIsOk_iff _).mp ((checkEndpoints_isOk _).symm ▸ hb) with ⟨u2, h2⟩
    rcases Option.isSome_iff_exists.mp hc with ⟨ep, h3⟩
    rcases (exceptIsOk_iff _).mp hd with ⟨u4, h4⟩
    rcases (exceptIsOk_iff _).mp he with ⟨cfg2, h5⟩
    obtain ⟨m1, m2, n1, n2, -, -, -, -, hshape⟩ := checkDangerousErrorRate_ok_shape h5
    have hcpeq : cfg2.coinPayments = cfg.coinPayments := by rw [hshape]
    unfold checkConfig
    rw [h1, h2, h3, h4, h5]
    cases hcc : cfg2.coinPayments with
    | none => simp [hcc, Except.isOk, Except.toBool]
    | some cp =>
      have hcps : cfg.coinPayments = some cp := by rw [← hcpeq]; exact hcc
      rcases (exceptIsOk_iff _).mp (hf cp hcps) with ⟨cp2, h6⟩
      simp [hcc, h6, Except.isOk, Except.toBool]

theorem parseConfig_ok_parts {j : Json} {r : Config} (h : parseConfig j = .ok r) :
    ∃ d c, decodeConfig j = .ok d ∧ checkConfig d = .ok c ∧
      r = (if c.sourceIPAddresses.length = 0
           then { c with sourceIPAddresses := [""] } else c) := by
  unfold parseConfig at h
  cases hd : decodeConfig j with
  | error e =>
    rw [hd] at h
    exact Except.noConfusion h
  | ok d =>
    rw [hd] at h
    simp only [Bind.bind, Except.bind] at h
    cases hc : checkConfig d with
    | error e =>
      rw [hc] at h
      exact Except.noConfusion h
    | ok c =>
      rw [hc] at h
      simp only [Bind.bind, Except.bind] at h
      refine ⟨d, c, rfl, hc, ?_⟩
      split at h <;> split <;> simp_all

theorem decodeFields_isOk_false_of_mem {α : Type}
    (step : α → String → Json → Except String α)
    {l : List (String × Json)} {k : String} {v : Json}
    (hmem : (k, v) ∈ l) (hbad : ∀ a, (step a k v).isOk = false) :
    ∀ a0, (decodeFields step a0 l).isOk = false := by
  induction l with
  | nil => cases hmem
  | cons hd tl ih =>
    intro a0
    obtain ⟨k', v'⟩ := hd
    rcases List.mem_cons.mp hmem with heq | hmem2
    · cases heq
      cases hs : step a0 k v with
      | error e => simp [decodeFields, hs, Except.isOk, Except.toBool]
      | ok a1 =>
        have hb := hbad a0
        rw [hs] at hb
        simp [Except.isOk, Except.toBool] at hb
    · cases hs : step a0 k' v' with
      | error e => simp [decodeFields, hs, Except.isOk, Except.toBool]
      | ok a1 => simpa [decodeFields, hs] using ih hmem2 a1

theorem setEndpointField_unknown {k : String} (hk : k ∉ endpointKeys)
    (a : Endpoint) (v : Json) :
    setEndpointField a k v = .error ("json: unknown field " ++ k) := by
  simp only [endpointKeys, List.mem_cons, List.not_mem_nil, or_false, not_or] at hk
  obtain ⟨n1, n2, n3, n4, n5, n6, n7⟩ := hk
  simp [setEndpointField, n1, n2, n3, n4, n5, n6, n7]

theorem setCoinPaymentsField_unknown {k : String} (hk : k ∉ coinPaymentsKeys)
    (a : CoinPaymentsConfig) (v : Json) :
    setCoinPaymentsField a k v = .error ("json: unknown field " ++ k) := by
  simp only [coinPaymentsKeys, List.mem_cons, List.not_mem_nil, or_false, not_or] at hk
  obtain ⟨n1, n2, n3, n4, n5, n6, n7⟩ := hk
  simp [setCoinPaymentsField, n1, n2, n3, n4, n5, n6, n7]

theorem setConfigField_unknown {k : String} (hk : k ∉ configKeys)
    (a : Config) (v : Json) :
    setConfigField a k v = .error ("json: unknown field " ++ k) := by
  simp only [configKeys, List.mem_cons, List.not_mem_nil, or_false, not_or] at hk
  obtain ⟨n1, n2, n3, n4, n5, n6, n7, n8, n9, n10, n11, n12, n13, n14, n15,
    n16, n17, n18, n19, n20, n21, n22⟩ := hk
  simp [setConfigField, n1, n2, n3, n4, n5, n6, n7, n8, n9, n10, n11, n12,
    n13, n14, n15, n16, n17, n18, n19, n20, n21, n22]

theorem decodeEndpointMap_isOk_false_of_mem {l : List (String × Json)}
    {name : String} {j : Json}
    (hmem : (name, j) ∈ l) (hbad : (decodeEndpoint j).isOk = false) :
    ∀ acc, (decodeEndpointMap acc l).isOk = false := by
  induction l with
  | nil => cases hmem
  | cons hd tl ih =>
    intro acc
    obtain ⟨n', j'⟩ := hd
    rcases List.mem_cons.mp hmem with heq | hmem2
    · cases heq
      cases hs : decodeEndpoint j with
      | error e => simp [decodeEndpointMap, hs, Except.isOk, Except.toBool]
      | ok e =>
        rw [hs] at hbad
        simp [Except.isOk, Except.toBool] at hbad
    · cases hs : decodeEndpoint j' with
      | error e => simp [decodeEndpointMap, hs, Except.isOk, Except.toBool]
      | ok e => simpa [decodeEndpointMap, hs] using ih hmem2 _

theorem perm_all_eq {α : Type} {l1 l2 : List α} (h : l1.Perm l2) (f : α → Bool) :
    l1.all f = l2.all f := by
  cases hb : l2.all f
  · rw [Bool.eq_false_iff]
    intro hc
    rw [List.all_eq_true] at hc
    have : l2.all f = true := List.all_eq_true.mpr fun x hx =>
      hc x (h.mem_iff.mpr hx)
    rw [hb] at this
    cases this
  · rw [List.all_eq_true] at hb ⊢
    exact fun x hx => hb x (h.mem_iff.mp hx)

theorem goParseIntDigits_ok {s : String} {n : Int} (h : goParseIntDigits s = .ok n) :
    digitsToNat s ≤ intMax ∧ n = Int.ofNat (digitsToNat s) := by
  unfold goParseIntDigits at h
  split at h
  · split at h
    · next hle => exact ⟨hle, ((Except.ok.injEq _ _).mp h).symm⟩
    · exact Except.noConfusion h
  · exact Except.noConfusion h

theorem checkCoinPaymentsConfig_ok_sub {cp cp2 : CoinPaymentsConfig}
    (h : checkCoinPaymentsConfig cp = .ok cp2) :
    checkSubscriptionPacket cp = .ok cp2 := by
  unfold checkCoinPaymentsConfig at h
  by_cases g1 : cp.currencies.length = 0
  · rw [if_pos g1] at h; exact Except.noConfusion h
  rw [if_neg g1] at h
  by_cases g2 : cp.publicKey = ""
  · rw [if_pos g2] at h; exact Except.noConfusion h
  rw [if_neg g2] at h
  by_cases g3 : cp.privateKey = ""
  · rw [if_pos g3] at h; exact Except.noConfusion h
  rw [if_neg g3] at h
  by_cases g4 : cp.ipnListenURL = ""
  · rw [if_pos g4] at h; exact Except.noConfusion h
  rw [if_neg g4] at h
  by_cases g5 : cp.ipnListenAddress = ""
  · rw [if_pos g5] at h; exact Except.noConfusion h
  rw [if_neg g5] at h
  by_cases g6 : cp.ipnSecret = ""
  · rw [if_pos g6] at h; exact Except.noConfusion h
  rw [if_neg g6] at h
  exact h

theorem checkDangerousErrorRate_isOk_endpoints (c : Config)
    (l : List (String × Endpoint)) :
    (checkDangerousErrorRate { c with endpoints := l }).isOk =
      (checkDangerousErrorRate c).isOk := by
  cases hm : fractionMatch c.dangerousErrorRate with
  | none => simp [checkDangerousErrorRate, hm]
  | some p =>
    obtain ⟨m1, m2⟩ := p
    cases h1 : goParseIntDigits m1 with
    | error e => simp [checkDangerousErrorRate, hm, h1]
    | ok n1 =>
      cases h2 : goParseIntDigits m2 with
      | error e => simp [checkDangerousErrorRate, hm, h1, h2]
      | ok n2 =>
        by_cases hz : n2 = 0
        · simp [checkDangerousErrorRate, hm, h1, h2, hz]
        · simp [checkDangerousErrorRate, hm, h1, h2, hz, Except.isOk, Except.toBool]

theorem checkConfig_isOk_perm {c1 : Config} {l2 : List (String × Endpoint)}
    (hperm : c1.endpoints.Perm l2) :
    (checkConfig { c1 with endpoints := l2 }).isOk = (checkConfig c1).isOk := by
  have hall : l2.all (fun p => (checkEndpointEntry p.2).isOk)
      = c1.endpoints.all (fun p => (checkEndpointEntry p.2).isOk) :=
    (perm_all_eq hperm _).symm
  have hlook : (lookupEndpoint l2 c1.adminEndpoint).isSome
      = (lookupEndpoint c1.endpoints c1.adminEndpoint).isSome := by
    cases hb : (lookupEndpoint c1.endpoints c1.adminEndpoint).isSome
    · rw [Bool.eq_false_iff]
      intro hc
      rcases (lookupEndpoint_isSome_iff _ _).mp hc with ⟨v, hv⟩
      have hmem : (lookupEndpoint c1.endpoints c1.adminEndpoint).isSome = true :=
        (lookupEndpoint_isSome_iff _ _).mpr ⟨v, hperm.mem_iff.mpr hv⟩
      rw [hb] at hmem
      cases hmem
    · rcases (lookupEndpoint_isSome_iff _ _).mp hb with ⟨v, hv⟩
      exact (lookupEndpoint_isSome_iff _ _).mpr ⟨v, hperm.mem_iff.mp hv⟩
  cases hc1 : (checkConfig c1).isOk
  · rw [Bool.eq_false_iff]
    intro hc2
    rw [checkConfig_isOk_iff] at hc2
    obtain ⟨ha, hb, hc, hd, he, hf⟩ := hc2
    have hok : (checkConfig c1).isOk = true := by
      rw [checkConfig_isOk_iff]
      refine ⟨ha, ?_, ?_, hd, ?_, hf⟩
      · rw [← hall]; exact hb
      · rw [← hlook]; exact hc
      · rw [← checkDangerousErrorRate_isOk_endpoints c1 l2]; exact he
    rw [hc1] at hok
    cases hok
  · rw [checkConfig_isOk_iff] at hc1 ⊢
    obtain ⟨ha, hb, hc, hd, he, hf⟩ := hc1
    refine ⟨ha, ?_, ?_, hd, ?_, hf⟩
    · rw [hall]; exact hb
    · rw [hlook]; exact hc
    · rw [checkDangerousErrorRate_isOk_endpoints]; exact he

theorem setConfigField_endpoints_isOk (a : Config) (v : Json) :
    (setConfigField a "endpoints" v).isOk = (asEndpointMap a.endpoints v).isOk := by
  cases hm : asEndpointMap a.endpoints v <;>
    simp [setConfigField, hm, Except.isOk, Except.toBool, Bind.bind, Except.bind]

theorem setConfigField_coinPayments_isOk (a : Config) (v : Json) :
    (setConfigField a "coin_payments" v).isOk
      = (asCoinPayments a.coinPayments v).isOk := by
  cases hm : asCoinPayments a.coinPayments v <;>
    simp [setConfigField, hm, Except.isOk, Except.toBool, Bind.bind, Except.bind]

theorem fractionMatch_some {s m1 m2 : String}
    (h : fractionMatch s = some (m1, m2)) :
    m1 ≠ "" ∧ m2 ≠ "" ∧ allDigits m1 = true ∧ allDigits m2 = true := by
  unfold fractionMatch at h
  split at h
  · next a b =>
    split at h
    · next hcond =>
      cases h
      simp only [Bool.and_eq_true, decide_eq_true_eq] at hcond
      exact ⟨hcond.1.1.1, hcond.1.1.2, hcond.1.2, hcond.2⟩
    · exact Option.noConfusion h
  · exact Option.noConfusion h

theorem goParseIntDigits_digits {s : String} (hne : s ≠ "")
    (hd : allDigits s = true) (hb : digitsToNat s ≤ intMax) :
    goParseIntDigits s = .ok (Int.ofNat (digitsToNat s)) := by
  have hnil : s.toList ≠ [] := by
    intro hl
    apply hne
    cases s with
    | mk data => cases hl; rfl
  unfold goParseIntDigits
  rw [if_pos ⟨hnil, hd⟩, if_pos hb]

/-!  The claims. -/

/-- Claim C1: every decoded document accepted by the validator has its
`admin_endpoint` among the keys of the `endpoints` map, and a document
whose `admin_endpoint` is not a key of `endpoints` is rejected even when
every endpoint entry has all four required fields non-empty. -/
theorem C1_admin_endpoint_is_endpoint_key (cfg : Config) :
    (∀ r, checkConfig cfg = .ok r →
      (lookupEndpoint cfg.endpoints cfg.adminEndpoint).isSome = true) ∧
    ((∀ p ∈ cfg.endpoints, p.2.listenPath ≠ "" ∧ p.2.listenAddress ≠ "" ∧
        p.2.botToken ≠ "" ∧ p.2.translation ≠ "") →
      lookupEndpoint cfg.endpoints cfg.adminEndpoint = none →
      (checkConfig cfg).isOk = false) := by
  constructor
  · intro r h
    exact (checkConfig_ok_parts h).2.2.1
  · intro hwf hnone
    rw [Bool.eq_false_iff]
    intro hok
    rw [checkConfig_isOk_iff] at hok
    have h3 := hok.2.2.1
    rw [hnone] at h3
    simp at h3

/-- Witness for C1: the base configuration is accepted and its admin
endpoint is a key; dropping the key makes validation fail. -/
theorem C1_witness :
    (lookupEndpoint cfgBase.endpoints cfgBase.adminEndpoint).isSome = true ∧
    (checkConfig { cfgBase with adminEndpoint := "missing" }).isOk = false :=
  ⟨(C1_admin_endpoint_is_endpoint_key cfgBase).1 cfgBaseOk (by decide),
   (C1_admin_endpoint_is_endpoint_key { cfgBase with adminEndpoint := "missing" }).2
     (by decide) (by decide)⟩

/-- Claim C2 (amended): for a `dangerous_error_rate` matching
`^(\d+)/(\d+)$` whose components fit in a signed 64-bit integer and whose
second component is positive, the validator stores `errorThreshold` = first
component and `errorDenominator` = second component exactly; a matching
rate whose second component is zero is rejected (nothing is stored), and a
non-matching rate is rejected. (The original claim, with no 64-bit bound,
is refuted by the counterexample.) -/
theorem C2_dangerous_error_rate_parsing :
    (∀ (cfg : Config) (m1 m2 : String),
        fractionMatch cfg.dangerousErrorRate = some (m1, m2) →
        digitsToNat m1 ≤ intMax → digitsToNat m2 ≤ intMax →
        0 < digitsToNat m2 →
        checkDangerousErrorRate cfg =
          .ok { cfg with errorThreshold := Int.ofNat (digitsToNat m1),
                         errorDenominator := Int.ofNat (digitsToNat m2) }) ∧
    (∀ (cfg : Config) (m1 m2 : String),
        fractionMatch cfg.dangerousErrorRate = some (m1, m2) →
        digitsToNat m2 = 0 →
        (checkDangerousErrorRate cfg).isOk = false) ∧
    (∀ cfg : Config, fractionMatch cfg.dangerousErrorRate = none →
        checkDangerousErrorRate cfg = .error "configure dangerous_error_rate") := by
  refine ⟨?_, ?_, ?_⟩
  · intro cfg m1 m2 hm hb1 hb2 hpos
    obtain ⟨hne1, hne2, hd1, hd2⟩ := fractionMatch_some hm
    simp only [checkDangerousErrorRate, hm]
    have hz : digitsToNat m2 ≠ 0 := by omega
    rw [goParseIntDigits_digits hne1 hd1 hb1, goParseIntDigits_digits hne2 hd2 hb2]
    simp [hz]
  · intro cfg m1 m2 hm hz
    obtain ⟨hne1, hne2, hd1, hd2⟩ := fractionMatch_some hm
    simp only [checkDangerousErrorRate, hm]
    cases h1 : goParseIntDigits m1 with
    | error e => simp [Except.isOk, Except.toBool]
    | ok n1 =>
      rw [goParseIntDigits_digits hne2 hd2 (by rw [hz]; exact Nat.zero_le _)]
      rw [hz]
      simp [Except.isOk, Except.toBool]
  · intro cfg hm
    simp only [checkDangerousErrorRate, hm]

/-- Witness for C2: the three behaviours at concrete rates `"1/1000"`,
`"5/0"` and `"nonsense"`. -/
theorem C2_witness :
    checkDangerousErrorRate cfgBase = .ok cfgBaseOk ∧
    (checkDangerousErrorRate { cfgBase with dangerousErrorRate := "5/0" }).isOk
      = false ∧
    checkDangerousErrorRate { cfgBase with dangerousErrorRate := "nonsense" }
      = .error "configure dangerous_error_rate" :=
  ⟨C2_dangerous_error_rate_parsing.1 cfgBase "1" "1000" (by decide) (by decide)
     (by decide) (by decide),
   C2_dangerous_error_rate_parsing.2.1 { cfgBase with dangerousErrorRate := "5/0" }
     "5" "0" (by decide) (by decide),
   C2_dangerous_error_rate_parsing.2.2 { cfgBase with dangerousErrorRate := "nonsense" }
     (by decide)⟩

/-- Counterexample to C2 as stated: `"9223372036854775808/10"` (2^63 over
10) matches the pattern with positive second component, yet validation
fails with a range error instead of storing the pair. -/
theorem C2_counterexample :
    fractionMatch ({ cfgBase with dangerousErrorRate := "9223372036854775808/10" } :
        Config).dangerousErrorRate = some ("9223372036854775808", "10") ∧
    0 < digitsToNat "10" ∧
    (checkDangerousErrorRate
       { cfgBase with dangerousErrorRate := "9223372036854775808/10" }).isOk
      = false ∧
    (checkConfig
       { cfgBase with dangerousErrorRate := "9223372036854775808/10" }).isOk
      = false := by
  exact ⟨by decide, by decide, by decide, by decide⟩

/-- Claim C3 (amended): when `subscription_packet` matches `^(\d+)/(\d+)$`
with both components positive and within the signed 64-bit range, the
validator stores the first component as `subscriptionPacketModelNumber`
and the second as `subscriptionPacketPrice` — the same component order as
`dangerous_error_rate`, not a swapped one; a zero component is rejected
and a non-matching packet is rejected. (The original claim, with no
64-bit bound on storing, is refuted by the counterexample.) -/
theorem C3_subscription_packet_roles :
    (∀ (cp : CoinPaymentsConfig) (m1 m2 : String),
        fractionMatch cp.subscriptionPacket = some (m1, m2) →
        digitsToNat m1 ≤ intMax → digitsToNat m2 ≤ intMax →
        0 < digitsToNat m1 → 0 < digitsToNat m2 →
        checkSubscriptionPacket cp =
          .ok { cp with
                subscriptionPacketPrice := Int.ofNat (digitsToNat m2),
                subscriptionPacketModelNumber := Int.ofNat (digitsToNat m1) }) ∧
    (∀ (cp : CoinPaymentsConfig) (m1 m2 : String),
        fractionMatch cp.subscriptionPacket = some (m1, m2) →
        digitsToNat m1 = 0 ∨ digitsToNat m2 = 0 →
        (checkSubscriptionPacket cp).isOk = false) ∧
    (∀ cp : CoinPaymentsConfig, fractionMatch cp.subscriptionPacket = none →
        checkSubscriptionPacket cp = .error "configure subscription_packet") ∧
    (∀ cp cp2 : CoinPaymentsConfig, checkCoinPaymentsConfig cp = .ok cp2 →
        ∀ m1 m2, fractionMatch cp.subscriptionPacket = some (m1, m2) →
        cp2.subscriptionPacketModelNumber = Int.ofNat (digitsToNat m1) ∧
        cp2.subscriptionPacketPrice = Int.ofNat (digitsToNat m2)) := by
  refine ⟨?_, ?_, ?_, ?_⟩
  · intro cp m1 m2 hm hb1 hb2 hp1 hp2
    obtain ⟨hne1, hne2, hd1, hd2⟩ := fractionMatch_some hm
    simp only [checkSubscriptionPacket, hm]
    have hz1 : digitsToNat m1 ≠ 0 := by omega
    have hz2 : digitsToNat m2 ≠ 0 := by omega
    rw [goParseIntDigits_digits hne1 hd1 hb1, goParseIntDigits_digits hne2 hd2 hb2]
    simp [hz1, hz2]
  · intro cp m1 m2 hm hz
    obtain ⟨hne1, hne2, hd1, hd2⟩ := fractionMatch_some hm
    simp only [checkSubscriptionPacket, hm]
    rcases hz with hz | hz
    · rw [goParseIntDigits_digits hne1 hd1 (by rw [hz]; exact Nat.zero_le _)]
      cases h2 : goParseIntDigits m2 with
      | error e => simp [Except.isOk, Except.toBool]
      | ok n2 =>
        rw [hz]
        simp [Except.isOk, Except.toBool]
    · cases h1 : goParseIntDigits m1 with
      | error e => simp [Except.isOk, Except.toBool]
      | ok n1 =>
        rw [goParseIntDigits_digits hne2 hd2 (by rw [hz]; exact Nat.zero_le _)]
        rw [hz]
        simp [Except.isOk, Except.toBool]
  · intro cp hm
    simp only [checkSubscriptionPacket, hm]
  · intro cp cp2 hok m1 m2 hm
    have hsub := checkCoinPaymentsConfig_ok_sub hok
    obtain ⟨m1', m2', n1, n2, hm', h1, h2, -, -, hshape⟩ :=
      checkSubscriptionPacket_ok_shape hsub
    rw [hm] at hm'
    obtain ⟨rfl, rfl⟩ : m1 = m1' ∧ m2 = m2' := by
      have := (Option.some.injEq _ _).mp hm'
      exact ⟨congrArg Prod.fst this, congrArg Prod.snd this⟩
    obtain ⟨-, rfl⟩ := goParseIntDigits_ok h1
    obtain ⟨-, rfl⟩ := goParseIntDigits_ok h2
    rw [hshape]
    exact ⟨rfl, rfl⟩

/-- Witness for C3: `"15/10"` yields model number 15 and price 10, both at
the packet step and through the full coin-payments validator. -/
theorem C3_witness :
    checkSubscriptionPacket cpBase =
      .ok { cpBase with subscriptionPacketPrice := 10,
                        subscriptionPacketModelNumber := 15 } ∧
    (cpBaseOk.subscriptionPacketModelNumber = Int.ofNat (digitsToNat "15") ∧
     cpBaseOk.subscriptionPacketPrice = Int.ofNat (digitsToNat "10")) :=
  ⟨C3_subscription_packet_roles.1 cpBase "15" "10" (by decide) (by decide)
     (by decide) (by decide) (by decide),
   C3_subscription_packet_roles.2.2.2 cpBase cpBaseOk (by decide) "15" "10"
     (by decide)⟩

/-- Counterexample to C3 as stated: `"9223372036854775808/10"` matches the
pattern with both components non-zero, yet the coin-payments validator
fails with a range error instead of storing the pair. -/
theorem C3_counterexample :
    fractionMatch ({ cpBase with subscriptionPacket := "9223372036854775808/10" } :
        CoinPaymentsConfig).subscriptionPacket
      = some ("9223372036854775808", "10") ∧
    0 < digitsToNat "9223372036854775808" ∧ 0 < digitsToNat "10" ∧
    (checkCoinPaymentsConfig
       { cpBase with subscriptionPacket := "9223372036854775808/10" }).isOk
      = false := by
  exact ⟨by decide, by decide, by decide, by decide⟩

/-- Claim C4 (amended): every accepted configuration has the seven required
integer fields non-zero, and a document with any of them zero is rejected;
only zero is rejected — a negative value passes (see the
counterexample). -/
theorem C4_required_integers_nonzero (cfg : Config) :
    (∀ r, checkConfig cfg = .ok r →
      r.periodSeconds ≠ 0 ∧ r.maxModels ≠ 0 ∧ r.timeoutSeconds ≠ 0 ∧
      r.notFoundThreshold ≠ 0 ∧ r.blockThreshold ≠ 0 ∧
      r.errorReportingPeriodMinutes ≠ 0 ∧ r.heavyUserRemainder ≠ 0) ∧
    ((cfg.periodSeconds = 0 ∨ cfg.maxModels = 0 ∨ cfg.timeoutSeconds = 0 ∨
      cfg.notFoundThreshold = 0 ∨ cfg.blockThreshold = 0 ∨
      cfg.errorReportingPeriodMinutes = 0 ∨ cfg.heavyUserRemainder = 0) →
      (checkConfig cfg).isOk = false) := by
  constructor
  · intro r h
    obtain ⟨-, -, -, hreq, -⟩ := checkConfig_ok_parts h
    obtain ⟨q1, q2, q3, -, -, q6, q7, -, -, q10, q11, -, -⟩ :=
      (checkRequiredFields_ok_iff cfg).mp hreq
    obtain ⟨-, hps, hmx, hts, -, -, -, hnf, hbt, -, herp, -, hhur, -, -, -⟩ :=
      checkConfig_ok_preserves h
    rw [hps, hmx, hts, hnf, hbt, herp, hhur]
    exact ⟨q1, q2, q3, q6, q7, q10, q11⟩
  · intro hz
    rw [Bool.eq_false_iff]
    intro hok
    rcases (exceptIsOk_iff _).mp hok with ⟨r, hr⟩
    obtain ⟨-, -, -, hreq, -⟩ := checkConfig_ok_parts hr
    obtain ⟨q1, q2, q3, -, -, q6, q7, -, -, q10, q11, -, -⟩ :=
      (checkRequiredFields_ok_iff cfg).mp hreq
    rcases hz with h | h | h | h | h | h | h <;> simp_all

/-- Witness for C4: the accepted base configuration has the seven fields
non-zero; setting `max_models` to zero makes validation fail. -/
theorem C4_witness :
    (cfgBaseOk.periodSeconds ≠ 0 ∧ cfgBaseOk.maxModels ≠ 0 ∧
     cfgBaseOk.timeoutSeconds ≠ 0 ∧ cfgBaseOk.notFoundThreshold ≠ 0 ∧
     cfgBaseOk.blockThreshold ≠ 0 ∧ cfgBaseOk.errorReportingPeriodMinutes ≠ 0 ∧
     cfgBaseOk.heavyUserRemainder ≠ 0) ∧
    (checkConfig { cfgBase with maxModels := 0 }).isOk = false :=
  ⟨(C4_required_integers_nonzero cfgBase).1 cfgBaseOk (by decide),
   (C4_required_integers_nonzero { cfgBase with maxModels := 0 }).2
     (Or.inr (Or.inl rfl))⟩

/-- Counterexample to C4 as stated: a document with
`period_seconds = -1` passes the validator, so negative values are not
rejected. -/
theorem C4_counterexample :
    ({ cfgBase with periodSeconds := -1 } : Config).periodSeconds < 0 ∧
    (checkConfig { cfgBase with periodSeconds := -1 }).isOk = true := by
  exact ⟨by decide, by decide⟩

/-- Claim C5: a JSON document containing a key not defined in the schema —
at top level, inside an endpoint object, or inside `coin_payments` — fails
strict decoding, whatever the other keys hold. -/
theorem C5_unknown_keys_rejected :
    (∀ (kvs : List (String × Json)) (k : String) (v : Json),
        (k, v) ∈ kvs → k ∉ configKeys →
        (decodeConfig (.obj kvs)).isOk = false) ∧
    (∀ (kvs eps ekvs : List (String × Json)) (name k : String) (v : Json),
        ("endpoints", Json.obj eps) ∈ kvs → (name, Json.obj ekvs) ∈ eps →
        (k, v) ∈ ekvs → k ∉ endpointKeys →
        (decodeConfig (.obj kvs)).isOk = false) ∧
    (∀ (kvs ckvs : List (String × Json)) (k : String) (v : Json),
        ("coin_payments", Json.obj ckvs) ∈ kvs → (k, v) ∈ ckvs →
        k ∉ coinPaymentsKeys →
        (decodeConfig (.obj kvs)).isOk = false) := by
  refine ⟨?_, ?_, ?_⟩
  · intro kvs k v hmem hk
    have := decodeFields_isOk_false_of_mem setConfigField hmem
      (fun a => by rw [setConfigField_unknown hk a v]; rfl) ({} : Config)
    simpa [decodeConfig] using this
  · intro kvs eps ekvs name k v hepsmem hnamemem hkmem hk
    have hend : (decodeEndpoint (.obj ekvs)).isOk = false := by
      have := decodeFields_isOk_false_of_mem setEndpointField hkmem
        (fun a => by rw [setEndpointField_unknown hk a v]; rfl) ({} : Endpoint)
      simpa [decodeEndpoint] using this
    have hstep : ∀ a : Config, (setConfigField a "endpoints" (.obj eps)).isOk = false := by
      intro a
      rw [setConfigField_endpoints_isOk]
      simpa [asEndpointMap] using
        decodeEndpointMap_isOk_false_of_mem hnamemem hend a.endpoints
    have := decodeFields_isOk_false_of_mem setConfigField hepsmem hstep ({} : Config)
    simpa [decodeConfig] using this
  · intro kvs ckvs k v hcpmem hkmem hk
    have hstep : ∀ a : Config,
        (setConfigField a "coin_payments" (.obj ckvs)).isOk = false := by
      intro a
      rw [setConfigField_coinPayments_isOk]
      have hdf := decodeFields_isOk_false_of_mem setCoinPaymentsField hkmem
        (fun b => by rw [setCoinPaymentsField_unknown hk b v]; rfl)
        (a.coinPayments.getD {})
      cases hx : decodeFields setCoinPaymentsField (a.coinPayments.getD {}) ckvs with
      | error e =>
        simp [asCoinPayments, hx, Bind.bind, Except.bind, Except.isOk, Except.toBool]
      | ok c =>
        rw [hx] at hdf
        simp [Except.isOk, Except.toBool] at hdf
    have := decodeFields_isOk_false_of_mem setConfigField hcpmem hstep ({} : Config)
    simpa [decodeConfig] using this

/-- Witness for C5: three one-typo documents — `"wevsite"` at top level,
`"listen_pth"` inside an endpoint, `"public_kee"` inside coin_payments —
all fail to decode. -/
theorem C5_witness :
    (decodeConfig (.obj [("wevsite", Json.str "x")])).isOk = false ∧
    (decodeConfig (.obj [("endpoints", Json.obj
        [("main", Json.obj [("listen_pth", Json.str "/x")])])])).isOk = false ∧
    (decodeConfig (.obj [("coin_payments", Json.obj
        [("public_kee", Json.str "x")])])).isOk = false :=
  ⟨C5_unknown_keys_rejected.1 [("wevsite", Json.str "x")] "wevsite"
     (Json.str "x") (by simp) (by decide),
   C5_unknown_keys_rejected.2.1
     [("endpoints", Json.obj [("main", Json.obj [("listen_pth", Json.str "/x")])])]
     [("main", Json.obj [("listen_pth", Json.str "/x")])]
     [("listen_pth", Json.str "/x")] "main" "listen_pth" (Json.str "/x")
     (by simp) (by simp) (by simp) (by decide),
   C5_unknown_keys_rejected.2.2
     [("coin_payments", Json.obj [("public_kee", Json.str "x")])]
     [("public_kee", Json.str "x")] "public_kee" (Json.str "x")
     (by simp) (by simp) (by decide)⟩

/-- Claim C6: a document whose decoded `source_ip_addresses` is empty
(omitted or supplied as an empty array) and which passes validation is
returned with exactly the one-element sequence containing the empty
string; the returned sequence is never empty. -/
theorem C6_source_ip_sentinel (j : Json) (d r : Config)
    (hd : decodeConfig j = .ok d) (hr : parseConfig j = .ok r) :
    (d.sourceIPAddresses = [] → r.sourceIPAddresses = [""]) ∧
    r.sourceIPAddresses ≠ [] := by
  obtain ⟨d', c, hd', hc, hshape⟩ := parseConfig_ok_parts hr
  rw [hd] at hd'
  obtain rfl : d = d' := (Except.ok.injEq _ _).mp hd'
  obtain ⟨-, -, -, -, -, -, -, -, -, hsip, -, -, -, -, -, -⟩ :=
    checkConfig_ok_preserves hc
  constructor
  · intro hnil
    rw [hshape, if_pos (by rw [hsip, hnil]; rfl)]
  · intro hcontra
    by_cases hlen : c.sourceIPAddresses.length = 0
    · rw [hshape, if_pos hlen] at hcontra
      simp at hcontra
    · rw [hshape, if_neg hlen] at hcontra
      exact hlen (by rw [hcontra]; rfl)

/-- Witness for C6 at the minimal document, whose `source_ip_addresses` is
omitted. -/
theorem C6_witness :
    minimalParsed.sourceIPAddresses = [""] ∧
    minimalParsed.sourceIPAddresses ≠ [] :=
  ⟨(C6_source_ip_sentinel minimalDoc minimalDecoded minimalParsed
      (by decide) (by decide)).1 (by decide),
   (C6_source_ip_sentinel minimalDoc minimalDecoded minimalParsed
      (by decide) (by decide)).2⟩

/-- Claim C7: the minimal well-formed document — one endpoint equal to the
admin endpoint, required scalars 1, required strings non-empty,
`dangerous_error_rate = "1/1000"` — parses successfully with
`errorThreshold = 1` and `errorDenominator = 1000`. -/
theorem C7_minimal_roundtrip :
    parseConfig minimalDoc = .ok minimalParsed ∧
    minimalParsed.errorThreshold = 1 ∧ minimalParsed.errorDenominator = 1000 := by
  exact ⟨by decide, by decide, by decide⟩

/-- Claim C8 is violated by the code: an empty `ipn_listen_url` and an
empty `ipn_listen_address` produce the identical message
`"configure ipn_path"`, which names a key that does not exist in the
schema, instead of two distinct messages naming the actual keys. -/
theorem C8_ipn_error_messages_identical :
    checkCoinPaymentsConfig { cpBase with ipnListenURL := "" }
      = .error "configure ipn_path" ∧
    checkCoinPaymentsConfig { cpBase with ipnListenAddress := "" }
      = .error "configure ipn_path" := by
  exact ⟨by decide, by decide⟩

/-- Claim C9 (amended): for two in-memory documents describing the same
JSON document — equal except for the iteration order of the endpoints
map — the validator's success/failure outcome is identical; the specific
first-violation message, however, can depend on the iteration order when
several endpoint entries are invalid at once (see the counterexample), so
only the outcome, not the message, is deterministic across runs. -/
theorem C9_outcome_order_invariant (c1 c2 : Config)
    (h : samePermutedDoc c1 c2) :
    (checkConfig c1).isOk = (checkConfig c2).isOk := by
  obtain ⟨hperm, heq⟩ := h
  have hinv := @checkConfig_isOk_perm c1 c2.endpoints hperm
  rw [← heq] at hinv
  exact hinv.symm

/-- Witness for C9: the two orderings of the same two-bad-endpoint
document give the same (failing) outcome. -/
theorem C9_witness :
    samePermutedDoc cfgTwoBadA cfgTwoBadB ∧
    (checkConfig cfgTwoBadA).isOk = (checkConfig cfgTwoBadB).isOk :=
  ⟨⟨List.Perm.swap _ _ _, by decide⟩,
   C9_outcome_order_invariant cfgTwoBadA cfgTwoBadB
     ⟨List.Perm.swap _ _ _, by decide⟩⟩

/-- Counterexample to C9 as stated: the same document in two iteration
orders of the endpoints map returns two different first-violation
messages, so the error message is not deterministic across runs. -/
theorem C9_counterexample :
    samePermutedDoc cfgTwoBadA cfgTwoBadB ∧
    checkConfig cfgTwoBadA = .error "configure listen_address" ∧
    checkConfig cfgTwoBadB = .error "configure listen_path" ∧
    checkConfig cfgTwoBadA ≠ checkConfig cfgTwoBadB :=
  ⟨⟨List.Perm.swap _ _ _, by decide⟩, by decide, by decide, by decide⟩

/-- Claim C10: a document whose `source_ip_addresses` explicitly contains
the empty string fails validation with an IP-parse error; consequently an
empty string can appear in a returned configuration's source list only as
the sentinel appended after validation, in which case the list is exactly
`[""]`. -/
theorem C10_explicit_empty_ip_rejected :
    (∀ cfg : Config, "" ∈ cfg.sourceIPAddresses →
      ∃ y, parseIP y = false ∧
        checkConfig cfg = .error ("cannot parse sourece IP address " ++ y)) ∧
    (∀ (j : Json) (r : Config), parseConfig j = .ok r →
      "" ∈ r.sourceIPAddresses → r.sourceIPAddresses = [""]) := by
  constructor
  · intro cfg hmem
    rcases checkSourceIPs_error_of_bad ⟨"", hmem, by decide⟩ with ⟨y, hy, hcs⟩
    refine ⟨y, hy, ?_⟩
    unfold checkConfig
    rw [hcs]
  · intro j r hr hmem
    obtain ⟨d, c, hd, hc, hshape⟩ := parseConfig_ok_parts hr
    obtain ⟨-, -, -, -, -, -, -, -, -, hsip, -, -, -, -, -, -⟩ :=
      checkConfig_ok_preserves hc
    obtain ⟨hips, -⟩ := checkConfig_ok_parts hc
    rw [checkSourceIPs_isOk, List.all_eq_true] at hips
    by_cases hlen : c.sourceIPAddresses.length = 0
    · rw [hshape, if_pos hlen]
    · rw [hshape, if_neg hlen] at hmem
      exact absurd (hips "" (by rw [← hsip]; exact hmem)) (by decide)

/-- Witness for C10: the document with an explicit empty source IP is
rejected with the IP-parse message, and the minimal document's returned
list is exactly the sentinel. -/
theorem C10_witness :
    (∃ y, parseIP y = false ∧
      checkConfig { cfgBase with sourceIPAddresses := [""] } =
        .error ("cannot parse sourece IP address " ++ y)) ∧
    minimalParsed.sourceIPAddresses = [""] :=
  ⟨C10_explicit_empty_ip_rejected.1 { cfgBase with sourceIPAddresses := [""] }
     (by decide),
   C10_explicit_empty_ip_rejected.2 minimalDoc minimalParsed (by decide)
     (by decide)⟩

end Siren
